import Mathlib

/-!
# Verification of the Innovedge bot core

Shallow embedding of the two source files of the repository:

* `src/app/crud/crud_reaction.py` (function `create_reaction`);
* `src/bin/version after fixing edit issues(doesnt work).py` — the Telegram
  bot: its handler functions, and the dispatch wiring built in `main()`
  (handler registration order, `ConversationHandler` state dictionaries,
  fallbacks and entry points of python-telegram-bot).

The Entity Store is modelled as explicit lists of records (`Store`); each
handler is a pure function from the store, the acting user's `user_data`
buffer and the message payload to a `Step` (new store, new buffer,
conversation outcome, emitted outputs).  Python's `str.strip` is modelled by
`pyStrip`, `str.upper` by `pyUpper`, `str.lower` by `pyLower`, `int(...)` on
strings by `pythonInt` (sign, digits, underscores between digits),
`str.split()` by `pySplit`.  A handler call that would raise (e.g. a `KeyError` on a missing
`user_data` key) is modelled as the python-telegram-bot error path: no store
write, no conversation transition, the generic error reply.

Functions the bot imports from `app.crud.crud_user`, `app.crud.crud_task`,
and the two names missing from `app.crud.crud_reaction`
(`check_mutual_like`, `create_match`) are not in the provided source; those
definitions are marked `Modelled from the spec:` and follow the
specification's words.
-/

namespace Innovedge

inductive UserRole where
  | TALENT
  | EMPLOYER
deriving DecidableEq

def UserRole.value : UserRole → String
  | .TALENT => "TALENT"
  | .EMPLOYER => "EMPLOYER"

inductive ReactionType where
  | LIKE
deriving DecidableEq

structure User where
  id : Nat
  telegram_id : Nat
  name : String
  role : UserRole
  description : Option String
  categories : Option String
  university : Option String
  study_year : Option Int
deriving DecidableEq

structure Task where
  id : Nat
  owner_id : Nat
  description : String
  timeframe : String
  reward : String
  categories : Option String
deriving DecidableEq

structure Reaction where
  from_user_id : Nat
  to_user_id : Nat
  reaction_type : ReactionType
deriving DecidableEq

/-- The Entity Store: Users, Tasks, Reactions and Matches (a Match is the
pair of user ids passed to `create_match`), plus surrogate id counters. -/
structure Store where
  users : List User
  tasks : List Task
  reactions : List Reaction
  match_rows : List (Nat × Nat)
  nextUserId : Nat
  nextTaskId : Nat
deriving DecidableEq

/-! ## Python string primitives -/

/-- Drop leading whitespace characters. -/
def dropWs : List Char → List Char
  | [] => []
  | c :: rest => if c.isWhitespace then dropWs rest else c :: rest

/-- Python `str.strip()` with no argument: remove leading and trailing
whitespace. -/
def pyStrip (s : String) : String :=
  String.mk ((dropWs (dropWs s.data).reverse).reverse)

/-- Python `str.upper()` (ASCII as used by the bot's inputs). -/
def pyUpper (s : String) : String := String.mk (s.data.map Char.toUpper)

/-- Python `str.lower()` (ASCII as used by the bot's inputs). -/
def pyLower (s : String) : String := String.mk (s.data.map Char.toLower)

def pySplitAux : List Char → List Char → List String
  | [], acc => if acc.isEmpty then [] else [String.mk acc.reverse]
  | c :: rest, acc =>
    if c.isWhitespace then
      if acc.isEmpty then pySplitAux rest []
      else String.mk acc.reverse :: pySplitAux rest []
    else pySplitAux rest (c :: acc)

/-- Python `str.split()` with no argument: split on whitespace runs,
discarding empty pieces. -/
def pySplit (s : String) : List String := pySplitAux s.data []

mutual

/-- Digit run accepted by Python `int`: starts with a digit. -/
def pyDigitsCore : List Char → Bool
  | [] => false
  | c :: rest => c.isDigit && pyDigitsTail rest

/-- After a digit: end, another digit, or an underscore followed by digits. -/
def pyDigitsTail : List Char → Bool
  | [] => true
  | c :: rest => if c = '_' then pyDigitsCore rest else c.isDigit && pyDigitsTail rest

end

def natOfPyDigits (cs : List Char) : Nat :=
  cs.foldl (fun acc c => if c = '_' then acc else acc * 10 + (c.toNat - 48)) 0

/-- Python `int(s)` on a string: strip surrounding whitespace, optional sign,
then digits with underscores allowed between digits; `none` models the
`ValueError` raise. -/
def pythonInt (s : String) : Option Int :=
  match (pyStrip s).data with
  | '+' :: rest => if pyDigitsCore rest then some (natOfPyDigits rest : Int) else none
  | '-' :: rest => if pyDigitsCore rest then some (-(natOfPyDigits rest : Int)) else none
  | cs => if pyDigitsCore cs then some (natOfPyDigits cs : Int) else none

/-- Python `str.capitalize()`: first character uppercased, the rest lowered. -/
def pyCapitalize (s : String) : String :=
  match s.data with
  | [] => ""
  | c :: rest => String.mk (c.toUpper :: rest.map Char.toLower)

/-! ## CRUD layer -/

/-- From `src/app/crud/crud_reaction.py`: `create_reaction` unconditionally
adds a Reaction row with the given fields. -/
def create_reaction (db : Store) (from_user_id to_user_id : Nat)
    (rt : ReactionType) : Store :=
  { db with reactions := db.reactions ++ [⟨from_user_id, to_user_id, rt⟩] }

/-- A LIKE Reaction from `a` to `b` exists in the store. -/
def hasLike (db : Store) (a b : Nat) : Bool :=
  db.reactions.any (fun r =>
    r.from_user_id == a && r.to_user_id == b && r.reaction_type == ReactionType.LIKE)

/-- Modelled from the spec: `check_mutual_like` is imported by the bot from
`app.crud.crud_reaction` but is not defined in the provided source.  Per the
spec's glossary ("Reciprocity: existence of reactions in both directions
between two users") and §4.2 it holds when a LIKE Reaction exists in both
directions for the pair. -/
def check_mutual_like (db : Store) (a b : Nat) : Bool :=
  hasLike db a b && hasLike db b a

/-- The predicate on a Match row for the unordered pair `{a, b}`. -/
def matchPred (a b : Nat) (p : Nat × Nat) : Bool :=
  (p.1 == a && p.2 == b) || (p.1 == b && p.2 == a)

/-- A Match record for the unordered pair `{a, b}` exists. -/
def matchExists (db : Store) (a b : Nat) : Bool :=
  db.match_rows.any (matchPred a b)

/-- Number of Match records held for the unordered pair `{a, b}`. -/
def matchCount (db : Store) (a b : Nat) : Nat :=
  (db.match_rows.filter (matchPred a b)).length

/-- Modelled from the spec: `create_match` is imported by the bot from
`app.crud.crud_reaction` but is not defined in the provided source.  Per the
spec (§4.2 step 3, and `createMatchIfAbsent` in §6) it creates a Match for
the unordered pair only if none already exists for that pair. -/
def create_match (db : Store) (a b : Nat) : Store :=
  if matchExists db a b then db
  else { db with match_rows := db.match_rows ++ [(a, b)] }

/-- Modelled from the spec: `get_user_by_telegram_id` (from
`app.crud.crud_user`, not in the provided source): look a User up by the
stable external identifier. -/
def get_user_by_telegram_id (db : Store) (tid : Nat) : Option User :=
  db.users.find? (fun u => u.telegram_id == tid)

/-- Modelled from the spec: `create_user` (from `app.crud.crud_user`, not in
the provided source): Entity Store `createUser` appends a new User with the
given fields and a fresh surrogate id. -/
def create_user (db : Store) (telegram_id : Nat) (name : String)
    (role : UserRole) (description : Option String)
    (categories : Option String) : Store × User :=
  let u : User :=
    ⟨db.nextUserId, telegram_id, name, role, description, categories, none, none⟩
  ({ db with users := db.users ++ [u], nextUserId := db.nextUserId + 1 }, u)

/-- Modelled from the spec: `create_task` (from `app.crud.crud_task`, not in
the provided source): Entity Store `createTask` appends a new Task with the
given fields and a fresh surrogate id. -/
def create_task (db : Store) (owner_id : Nat) (description timeframe reward : String)
    (categories : Option String) : Store × Task :=
  let t : Task := ⟨db.nextTaskId, owner_id, description, timeframe, reward, categories⟩
  ({ db with tasks := db.tasks ++ [t], nextTaskId := db.nextTaskId + 1 }, t)

/-- Modelled from the spec: `get_task_by_id` (from `app.crud.crud_task`, not
in the provided source): look a Task up by its id (the id parsed from the
command is a Python int, so it is an `Int` here). -/
def get_task_by_id (db : Store) (k : Int) : Option Task :=
  db.tasks.find? (fun t => (t.id : Int) == k)

/-- Modelled from the spec: `get_all_tasks` (from `app.crud.crud_task`, not
in the provided source): list all Tasks. -/
def get_all_tasks (db : Store) : List Task :=
  db.tasks

/-- The value written by a profile edit: a string for name / description /
university, an int for study_year (converted by the handler). -/
inductive EditValue where
  | str (s : String)
  | intVal (n : Int)
deriving DecidableEq

/-- Apply one named field update to a User (the `**{field: new_value}`
keyword expansion; the field name always comes from the handler's closed
`field_map`). -/
def setField (u : User) (field : String) (v : EditValue) : User :=
  match field, v with
  | "name", .str s => { u with name := s }
  | "description", .str s => { u with description := some s }
  | "university", .str s => { u with university := some s }
  | "study_year", .intVal n => { u with study_year := some n }
  | _, _ => u

/-- Replace the first User with the given telegram id. -/
def replaceFirst (users : List User) (tid : Nat) (f : User → User) : List User :=
  match users with
  | [] => []
  | u :: rest =>
    if u.telegram_id == tid then f u :: rest else u :: replaceFirst rest tid f

/-- Remove the first User with the given telegram id (`db.delete(user)` on
the object found by telegram id). -/
def deleteFirst (users : List User) (tid : Nat) : List User :=
  match users with
  | [] => []
  | u :: rest =>
    if u.telegram_id == tid then rest else u :: deleteFirst rest tid

/-- Modelled from the spec: `update_user` (from `app.crud.crud_user`, not in
the provided source): Entity Store `updateUser(fields)` — set the field on
the User with that telegram id and return the updated User, or `none` when
no such User exists. -/
def update_user (db : Store) (telegram_id : Nat) (field : String)
    (v : EditValue) : Store × Option User :=
  match db.users.find? (fun u => u.telegram_id == telegram_id) with
  | none => (db, none)
  | some u =>
    ({ db with users := replaceFirst db.users telegram_id (fun x => setField x field v) },
     some (setField u field v))

/-! ## The task-application path (`apply_task_command`) -/

/-- A `context.bot.send_message(chat_id=..., text=...)` call. -/
structure Notification where
  chat_id : Nat
  text : String
deriving DecidableEq

structure ApplyResult where
  db : Store
  replies : List String
  notifications : List Notification
deriving DecidableEq

/-- `apply_task_command` from the bot source: guard on a registered TALENT,
parse `/apply_task <task_id>`, look the task up, append the LIKE reaction,
and on reciprocity create the match and notify the task's owner. -/
def apply_task_command (db : Store) (telegram_user_id : Nat)
    (messageText : String) : ApplyResult :=
  match get_user_by_telegram_id db telegram_user_id with
  | none => ⟨db, ["Only talents can apply to tasks."], []⟩
  | some user =>
    if user.role ≠ UserRole.TALENT then
      ⟨db, ["Only talents can apply to tasks."], []⟩
    else
      match pySplit messageText with
      | _ :: p1 :: _ =>
        match pythonInt p1 with
        | none => ⟨db, ["Task ID must be a number."], []⟩
        | some task_id =>
          match get_task_by_id db task_id with
          | none => ⟨db, ["Task not found."], []⟩
          | some task =>
            let db1 := create_reaction db user.id task.owner_id ReactionType.LIKE
            if check_mutual_like db1 user.id task.owner_id then
              let db2 := create_match db1 user.id task.owner_id
              let notifs :=
                match db2.users.find? (fun u => u.id == task.owner_id) with
                | some emp => [⟨emp.telegram_id, "You have a new match!"⟩]
                | none => []
              ⟨db2, ["Applied successfully, and it's a match!"], notifs⟩
            else
              ⟨db1, ["Applied successfully!"], []⟩
      | _ => ⟨db, ["Usage: /apply_task <task_id>"], []⟩

/-! ## Module-level names (import resolution of line 16 of the bot) -/

/-- The names defined at top level of `src/app/crud/crud_reaction.py`. -/
def crud_reaction_definitions : List String := ["create_reaction"]

/-- The names the bot imports from `app.crud.crud_reaction`
(`from app.crud.crud_reaction import create_reaction, check_mutual_like,
create_match`, line 16). -/
def bot_crud_reaction_imports : List String :=
  ["create_reaction", "check_mutual_like", "create_match"]

/-! ## Conversation engine: session data and handler results

Conversation states from the source: `ASK_ROLE, ASK_NAME, ASK_SKILLS =
range(3)`, `ASK_TASK_DESC, ASK_TASK_TIMEFRAME, ASK_TASK_REWARD = range(3)`,
`EDIT_FIELD, EDIT_VALUE = range(2)`, `CONFIRM_DELETE = range(1)`. -/

def ASK_ROLE : Nat := 0
def ASK_NAME : Nat := 1
def ASK_SKILLS : Nat := 2
def ASK_TASK_DESC : Nat := 0
def ASK_TASK_TIMEFRAME : Nat := 1
def ASK_TASK_REWARD : Nat := 2
def EDIT_FIELD : Nat := 0
def EDIT_VALUE : Nat := 1
def CONFIRM_DELETE : Nat := 0

/-- The keys the bot writes into `context.user_data` (the per-user field
buffer); absent key = the Python dict has no such entry. -/
structure UserData where
  role : Option UserRole
  name : Option String
  task_desc : Option String
  task_timeframe : Option String
  task_reward : Option String
  editing_field : Option String
deriving DecidableEq

def UserData.empty : UserData := ⟨none, none, none, none, none, none⟩

/-- Per-`ConversationHandler` state dictionaries (python-telegram-bot keeps
one `_conversations` dict per handler, keyed by the user): one association
list per registered conversation, telegram id ↦ current state. -/
structure ConvMaps where
  register : List (Nat × Nat)
  postTask : List (Nat × Nat)
  deleteProfile : List (Nat × Nat)
  editProfile : List (Nat × Nat)
deriving DecidableEq

inductive ConvKey where
  | register
  | postTask
  | deleteProfile
  | editProfile
deriving DecidableEq

def lookupConv (m : List (Nat × Nat)) (tid : Nat) : Option Nat :=
  (m.find? (fun p => p.1 == tid)).map Prod.snd

def setConv (m : List (Nat × Nat)) (tid : Nat) (s : Option Nat) : List (Nat × Nat) :=
  match s with
  | none => m.filter (fun p => p.1 != tid)
  | some st => (tid, st) :: m.filter (fun p => p.1 != tid)

def getConvMap (c : ConvMaps) : ConvKey → List (Nat × Nat)
  | .register => c.register
  | .postTask => c.postTask
  | .deleteProfile => c.deleteProfile
  | .editProfile => c.editProfile

def setConvMap (c : ConvMaps) (k : ConvKey) (m : List (Nat × Nat)) : ConvMaps :=
  match k with
  | .register => { c with register := m }
  | .postTask => { c with postTask := m }
  | .deleteProfile => { c with deleteProfile := m }
  | .editProfile => { c with editProfile := m }

def getUD (m : List (Nat × UserData)) (tid : Nat) : UserData :=
  ((m.find? (fun p => p.1 == tid)).map Prod.snd).getD UserData.empty

def setUD (m : List (Nat × UserData)) (tid : Nat) (d : UserData) :
    List (Nat × UserData) :=
  (tid, d) :: m.filter (fun p => p.1 != tid)

/-- What a handler returned to the `ConversationHandler`: a new state,
`ConversationHandler.END`, or Python `None` (keep the current state). -/
inductive ConvOutcome where
  | stay
  | move (s : Nat)
  | done
deriving DecidableEq

/-- A user-visible output: a reply in the acting user's chat (covers
`reply_text` and message edits) or a `bot.send_message` to another chat. -/
inductive Output where
  | reply (tid : Nat) (text : String)
  | send (chat_id : Nat) (text : String)
deriving DecidableEq

/-- Result of running one handler: the store, the acting user's `user_data`,
the value returned to the conversation machinery, and the outputs. -/
structure Step where
  db : Store
  ud : UserData
  outcome : ConvOutcome
  out : List Output
deriving DecidableEq

/-- The reply of `error_handler` when a handler raises. -/
def internalErrorReply : String := "An internal error occurred. Please try again later."

/-- `x or 'N/A'` on an optional string field (Python `or`: empty string is
falsy too). -/
def orNA (o : Option String) : String :=
  match o with
  | some s => if s = "" then "N/A" else s
  | none => "N/A"

/-- The profile text built by `show_profile` / `show_profile_in_new_message`. -/
def profileMsg (u : User) : String :=
  "Your Profile:\nName: " ++ u.name ++ "\nRole: " ++ u.role.value ++
  "\nDescription: " ++ orNA u.description ++
  "\nCategories: " ++ orNA u.categories ++
  "\nUniversity: " ++ orNA u.university ++
  "\nStudy Year: " ++
  (match u.study_year with
   | some n => toString n
   | none => "N/A")

/-! ## Handlers

Each `def` mirrors one `async def` of the bot source.  `show_profile` is a
plain (non-async) function whose `reply_text(...)` coroutine is returned but
never awaited at its call sites (lines 247, 306, 458), so those calls send
nothing; it is modelled as producing no output.  `show_profile_in_new_message`
is awaited and does send the profile text. -/

def start_command (db : Store) (ud : UserData) (tid : Nat) : Step :=
  ⟨db, ud, .stay,
   [.reply tid "Welcome to Innovedge Bot!\nUse /register to create your profile."]⟩

def cancel (db : Store) (ud : UserData) (tid : Nat) : Step :=
  ⟨db, ud, .done, [.reply tid "Operation canceled."]⟩

def register_command (db : Store) (ud : UserData) (tid : Nat) : Step :=
  ⟨db, ud, .move ASK_ROLE, [.reply tid "Are you registering as TALENT or EMPLOYER?"]⟩

def received_role (db : Store) (ud : UserData) (tid : Nat) (text : String) : Step :=
  let role_str := pyUpper text
  if role_str ≠ "TALENT" ∧ role_str ≠ "EMPLOYER" then
    ⟨db, ud, .move ASK_ROLE, [.reply tid "Please choose TALENT or EMPLOYER."]⟩
  else
    let r := if role_str = "TALENT" then UserRole.TALENT else UserRole.EMPLOYER
    ⟨db, { ud with role := some r }, .move ASK_NAME,
     [.reply tid "Great, what's your name?"]⟩

def received_name (db : Store) (ud : UserData) (tid : Nat) (text : String) : Step :=
  let name := pyStrip text
  if name = "" then
    ⟨db, ud, .move ASK_NAME, [.reply tid "Name cannot be empty."]⟩
  else
    ⟨db, { ud with name := some name }, .move ASK_SKILLS,
     [.reply tid "Please describe your skill sets or expertise (e.g., 'I am good at web development and design')."]⟩

/-- `received_skills`: the Classifier (`categorize_text`) is the parameter
`cls`; a falsy (empty) result is stored as `None`.  A missing `name` or
`role` key in `user_data` is a `KeyError` raised while building the
`create_user` arguments, before any store write. -/
def received_skills (cls : String → String) (db : Store) (ud : UserData)
    (tid : Nat) (text : String) : Step :=
  let skills := pyStrip text
  match ud.name, ud.role with
  | some nm, some rl =>
    let categories := cls skills
    let res := create_user db tid nm rl (some skills)
      (if categories = "" then none else some categories)
    ⟨res.1, ud, .done,
     [.reply tid ("Registered " ++ res.2.name ++ " as " ++ res.2.role.value ++
       "! Categories: " ++ (res.2.categories.getD "None"))]⟩
  | _, _ => ⟨db, ud, .stay, [.reply tid internalErrorReply]⟩

def post_task_command (db : Store) (ud : UserData) (tid : Nat) : Step :=
  match get_user_by_telegram_id db tid with
  | some user =>
    if user.role ≠ UserRole.EMPLOYER then
      ⟨db, ud, .done, [.reply tid "Only employers can post tasks."]⟩
    else
      ⟨db, ud, .move ASK_TASK_DESC,
       [.reply tid "Please provide a description of the task:"]⟩
  | none => ⟨db, ud, .done, [.reply tid "Only employers can post tasks."]⟩

def received_task_desc (db : Store) (ud : UserData) (tid : Nat) (text : String) : Step :=
  ⟨db, { ud with task_desc := some text }, .move ASK_TASK_TIMEFRAME,
   [.reply tid "Got it. What's the timeframe for this task?"]⟩

def received_task_timeframe (db : Store) (ud : UserData) (tid : Nat) (text : String) : Step :=
  ⟨db, { ud with task_timeframe := some text }, .move ASK_TASK_REWARD,
   [.reply tid "What is the reward for completing this task?"]⟩

/-- `received_task_reward`: `user_data["task_reward"]` is set first; the
raising lookups (`task_desc` key, `employer_user.id` attribute,
`task_timeframe` key) happen in source order before the store write. -/
def received_task_reward (cls : String → String) (db : Store) (ud : UserData)
    (tid : Nat) (text : String) : Step :=
  let ud2 := { ud with task_reward := some text }
  match ud2.task_desc with
  | none => ⟨db, ud2, .stay, [.reply tid internalErrorReply]⟩
  | some desc =>
    let categories := cls desc
    match get_user_by_telegram_id db tid with
    | none => ⟨db, ud2, .stay, [.reply tid internalErrorReply]⟩
    | some emp =>
      match ud2.task_timeframe with
      | none => ⟨db, ud2, .stay, [.reply tid internalErrorReply]⟩
      | some tf =>
        let res := create_task db emp.id desc tf text
          (if categories = "" then none else some categories)
        ⟨res.1, ud2, .done,
         [.reply tid ("Task posted successfully with ID " ++ toString res.2.id ++
           "! Categories: " ++ (res.2.categories.getD "None"))]⟩

/-- `profile_command`: reads only; `show_profile` is called without `await`
so its reply coroutine is never sent. -/
def profile_command (db : Store) (ud : UserData) (tid : Nat) : Step :=
  match get_user_by_telegram_id db tid with
  | none =>
    ⟨db, ud, .stay, [.reply tid "You are not registered. Use /register first."]⟩
  | some _ => ⟨db, ud, .stay, []⟩

/-- `profile_callback` (standalone `CallbackQueryHandler`): `save_profile`
edits the message text then awaits `show_profile_in_new_message`, which
raises an `AttributeError` when the user is unregistered. -/
def profile_callback (db : Store) (ud : UserData) (tid : Nat) (data : String) : Step :=
  if data = "edit_profile" then ⟨db, ud, .stay, []⟩
  else if data = "save_profile" then
    match get_user_by_telegram_id db tid with
    | some u =>
      ⟨db, ud, .stay, [.reply tid "Profile saved (no changes)!", .reply tid (profileMsg u)]⟩
    | none =>
      ⟨db, ud, .stay, [.reply tid "Profile saved (no changes)!", .reply tid internalErrorReply]⟩
  else ⟨db, ud, .stay, []⟩

def edit_field_map (data : String) : Option String :=
  if data = "edit_name" then some "name"
  else if data = "edit_description" then some "description"
  else if data = "edit_university" then some "university"
  else if data = "edit_study_year" then some "study_year"
  else none

/-- `edit_profile_callback` (registered as a standalone
`CallbackQueryHandler`, outside any conversation, so its return value is
discarded by the dispatcher). -/
def edit_profile_callback (db : Store) (ud : UserData) (tid : Nat)
    (data : String) : Step :=
  if data = "cancel_editing" then
    match get_user_by_telegram_id db tid with
    | some u => ⟨db, ud, .done, [.reply tid "Editing canceled.", .reply tid (profileMsg u)]⟩
    | none => ⟨db, ud, .done, [.reply tid "Editing canceled.", .reply tid internalErrorReply]⟩
  else
    match edit_field_map data with
    | some f =>
      ⟨db, { ud with editing_field := some f }, .move EDIT_VALUE,
       [.reply tid ("Enter new value for " ++ f ++ ":")]⟩
    | none => ⟨db, ud, .stay, []⟩

/-- `edit_profile_value`: strip the input; for the study_year field convert
with Python `int`, re-prompting (state unchanged) on `ValueError`; then
`update_user(db, telegram_id, **{field: new_value})`.  A missing
`editing_field` key makes the `**{None: ...}` expansion raise a `TypeError`
before any write.  The final `show_profile` call is unawaited and sends
nothing. -/
def edit_profile_value (db : Store) (ud : UserData) (tid : Nat) (text : String) : Step :=
  let new_value := pyStrip text
  match ud.editing_field with
  | none => ⟨db, ud, .stay, [.reply tid internalErrorReply]⟩
  | some field =>
    if field = "study_year" then
      match pythonInt new_value with
      | none =>
        ⟨db, ud, .move EDIT_VALUE,
         [.reply tid "Study year must be a number, try again or cancel editing."]⟩
      | some n =>
        let res := update_user db tid field (.intVal n)
        match res.2 with
        | some _ =>
          ⟨res.1, ud, .done, [.reply tid (pyCapitalize field ++ " updated successfully!")]⟩
        | none =>
          ⟨res.1, ud, .done, [.reply tid "Could not update the profile. Please try again."]⟩
    else
      let res := update_user db tid field (.str new_value)
      match res.2 with
      | some _ =>
        ⟨res.1, ud, .done, [.reply tid (pyCapitalize field ++ " updated successfully!")]⟩
      | none =>
        ⟨res.1, ud, .done, [.reply tid "Could not update the profile. Please try again."]⟩

def delete_profile_command (db : Store) (ud : UserData) (tid : Nat) : Step :=
  match get_user_by_telegram_id db tid with
  | none => ⟨db, ud, .done, [.reply tid "You have no profile to delete."]⟩
  | some _ =>
    ⟨db, ud, .move CONFIRM_DELETE,
     [.reply tid "Are you sure you want to delete your profile? If yes, type exactly:\n\npapafranchesco is genius\n\nOtherwise, /cancel."]⟩

/-- `confirm_delete_profile`: the input is stripped before the literal
comparison, then the User found by telegram id (if any) is deleted. -/
def confirm_delete_profile (db : Store) (ud : UserData) (tid : Nat)
    (text : String) : Step :=
  if pyStrip text = "papafranchesco is genius" then
    let db2 :=
      match get_user_by_telegram_id db tid with
      | some _ => { db with users := deleteFirst db.users tid }
      | none => db
    ⟨db2, ud, .done, [.reply tid "Your profile has been deleted."]⟩
  else
    ⟨db, ud, .done, [.reply tid "Profile deletion canceled or phrase not matched."]⟩

def help_text : String :=
  "Help Menu:\n/register - Register as TALENT or EMPLOYER.\n/profile - View your profile and manage it.\n/browse_tasks - (If TALENT) Browse available tasks.\n/apply_task <task_id> - Apply to a specific task.\n/post_task - (If EMPLOYER) Post a new task.\n/delete_profile - Delete your profile (requires confirmation).\n\nUse the menu below for quick navigation."

def help_command (db : Store) (ud : UserData) (tid : Nat) : Step :=
  ⟨db, ud, .stay, [.reply tid help_text]⟩

def recommendations_command (db : Store) (ud : UserData) (tid : Nat) : Step :=
  ⟨db, ud, .stay, [.reply tid "Recommendations feature is coming soon!"]⟩

def show_likes_command (db : Store) (ud : UserData) (tid : Nat) : Step :=
  ⟨db, ud, .stay, [.reply tid "Your likes: (This feature is under construction)"]⟩

def taskLine (t : Task) : String :=
  "ID: " ++ toString t.id ++ ", Desc: " ++ String.mk (t.description.data.take 50) ++
  "..., Categories: " ++ orNA t.categories ++
  ", Reward: " ++ (if t.reward = "" then "N/A" else t.reward) ++ "\n"

def browse_tasks_command (db : Store) (ud : UserData) (tid : Nat) : Step :=
  match get_user_by_telegram_id db tid with
  | none => ⟨db, ud, .stay, [.reply tid "Only talents can browse tasks."]⟩
  | some user =>
    if user.role ≠ UserRole.TALENT then
      ⟨db, ud, .stay, [.reply tid "Only talents can browse tasks."]⟩
    else
      match get_all_tasks db with
      | [] => ⟨db, ud, .stay, [.reply tid "No tasks available at the moment."]⟩
      | tasks =>
        ⟨db, ud, .stay,
         [.reply tid (tasks.foldl (fun m t => m ++ taskLine t) "Available Tasks:\n")]⟩

/-- `handle_menu_buttons`: lower-cased stripped text; the registered
"profile" branch calls `show_profile` without `await`, sending nothing. -/
def handle_menu_buttons (db : Store) (ud : UserData) (tid : Nat) (text : String) : Step :=
  let t := pyLower (pyStrip text)
  if t = "help" then help_command db ud tid
  else if t = "profile" then
    match get_user_by_telegram_id db tid with
    | none => ⟨db, ud, .stay, [.reply tid "You are not registered. Use /register first."]⟩
    | some _ => ⟨db, ud, .stay, []⟩
  else if t = "recommendations" then recommendations_command db ud tid
  else if t = "show my likes" then show_likes_command db ud tid
  else
    ⟨db, ud, .stay,
     [.reply tid "Unrecognized option. Use the menu buttons or /help for assistance."]⟩

/-- `apply_task_command` wrapped as a handler step: replies first, then the
cross-user notification, as in the source. -/
def apply_task_handler (db : Store) (ud : UserData) (tid : Nat) (text : String) : Step :=
  let r := apply_task_command db tid text
  ⟨r.db, ud, .stay,
   r.replies.map (Output.reply tid) ++
   r.notifications.map (fun n => Output.send n.chat_id n.text)⟩

/-! ## Dispatcher

The wiring of `main()`: handlers are tried in registration order, the first
match handles the update (all are in python-telegram-bot group 0).  An
active `ConversationHandler` matches through its current state's handlers,
then its fallbacks; an inactive one matches only through its entry points.
A conversation's state dict is updated from the handler's return value; the
return value of a standalone handler is discarded. -/

structure BotState where
  db : Store
  convs : ConvMaps
  userData : List (Nat × UserData)
deriving DecidableEq

/-- An inbound update for the per-user private chat: a command message
(`/name ...`), a plain text message, or an inline-button callback query. -/
inductive Event where
  | command (tid : Nat) (text : String)
  | text (tid : Nat) (content : String)
  | callback (tid : Nat) (data : String)
deriving DecidableEq

/-- The command name of a message (`CommandHandler` matches on the first
token of the text). -/
def firstToken (s : String) : String := (pySplit s).headD ""

/-- Apply a handler's `Step` inside the named conversation: its returned
state (or END) updates that conversation's dict. -/
def applyStep (st : BotState) (tid : Nat) (k : ConvKey) (stp : Step) :
    BotState × List Output :=
  let m := getConvMap st.convs k
  let m2 :=
    match stp.outcome with
    | .stay => m
    | .move s => setConv m tid (some s)
    | .done => setConv m tid none
  (⟨stp.db, setConvMap st.convs k m2, setUD st.userData tid stp.ud⟩, stp.out)

/-- Apply a standalone handler's `Step`: its return value is discarded, no
conversation dict changes. -/
def applyPlain (st : BotState) (tid : Nat) (stp : Step) :
    BotState × List Output :=
  (⟨stp.db, st.convs, setUD st.userData tid stp.ud⟩, stp.out)

/-- Command dispatch from `edit_profile_conv` (registration position 11)
onward: inactive with no entry points, active commands only via the
`/cancel` fallback; nothing after it matches a command. -/
def cmdFromEdit (st : BotState) (tid : Nat) (text : String) (ud : UserData) :
    BotState × List Output :=
  match lookupConv st.convs.editProfile tid with
  | some _ =>
    if firstToken text = "/cancel" then
      applyStep st tid .editProfile (cancel st.db ud tid)
    else (st, [])
  | none => (st, [])

/-- Command dispatch from `delete_profile_conv` (position 10) onward. -/
def cmdFromDelete (st : BotState) (tid : Nat) (text : String) (ud : UserData) :
    BotState × List Output :=
  match lookupConv st.convs.deleteProfile tid with
  | some _ =>
    if firstToken text = "/cancel" then
      applyStep st tid .deleteProfile (cancel st.db ud tid)
    else cmdFromEdit st tid text ud
  | none =>
    if firstToken text = "/delete_profile" then
      applyStep st tid .deleteProfile (delete_profile_command st.db ud tid)
    else cmdFromEdit st tid text ud

/-- Command dispatch from the plain `CommandHandler`s (positions 4–9)
onward. -/
def cmdFromPlain (st : BotState) (tid : Nat) (text : String) (ud : UserData) :
    BotState × List Output :=
  if firstToken text = "/browse_tasks" then
    applyPlain st tid (browse_tasks_command st.db ud tid)
  else if firstToken text = "/apply_task" then
    applyPlain st tid (apply_task_handler st.db ud tid text)
  else if firstToken text = "/profile" then
    applyPlain st tid (profile_command st.db ud tid)
  else if firstToken text = "/help" then
    applyPlain st tid (help_command st.db ud tid)
  else if firstToken text = "/recommendations" then
    applyPlain st tid (recommendations_command st.db ud tid)
  else if firstToken text = "/show_likes" then
    applyPlain st tid (show_likes_command st.db ud tid)
  else cmdFromDelete st tid text ud

/-- Command dispatch from `post_task_conv` (position 3) onward. -/
def cmdFromPostTask (st : BotState) (tid : Nat) (text : String) (ud : UserData) :
    BotState × List Output :=
  match lookupConv st.convs.postTask tid with
  | some _ =>
    if firstToken text = "/cancel" then
      applyStep st tid .postTask (cancel st.db ud tid)
    else cmdFromPlain st tid text ud
  | none =>
    if firstToken text = "/post_task" then
      applyStep st tid .postTask (post_task_command st.db ud tid)
    else cmdFromPlain st tid text ud

/-- Dispatch of a command message, starting at `/start` (position 1) and
`register_conv` (position 2). -/
def dispatchCommand (st : BotState) (tid : Nat) (text : String) :
    BotState × List Output :=
  let ud := getUD st.userData tid
  if firstToken text = "/start" then
    applyPlain st tid (start_command st.db ud tid)
  else
    match lookupConv st.convs.register tid with
    | some _ =>
      if firstToken text = "/cancel" then
        applyStep st tid .register (cancel st.db ud tid)
      else cmdFromPostTask st tid text ud
    | none =>
      if firstToken text = "/register" then
        applyStep st tid .register (register_command st.db ud tid)
      else cmdFromPostTask st tid text ud

/-- Text dispatch from `edit_profile_conv` (position 11) onward; the last
resort is the global menu text handler (position 14). -/
def textFromEdit (st : BotState) (tid : Nat) (s : String) (ud : UserData) :
    BotState × List Output :=
  match lookupConv st.convs.editProfile tid with
  | some 1 => applyStep st tid .editProfile (edit_profile_value st.db ud tid s)
  | _ => applyPlain st tid (handle_menu_buttons st.db ud tid s)

/-- Text dispatch from `delete_profile_conv` (position 10) onward. -/
def textFromDelete (st : BotState) (tid : Nat) (s : String) (ud : UserData) :
    BotState × List Output :=
  match lookupConv st.convs.deleteProfile tid with
  | some 0 => applyStep st tid .deleteProfile (confirm_delete_profile st.db ud tid s)
  | _ => textFromEdit st tid s ud

/-- Text dispatch from `post_task_conv` (position 3) onward. -/
def textFromPostTask (cls : String → String) (st : BotState) (tid : Nat)
    (s : String) (ud : UserData) : BotState × List Output :=
  match lookupConv st.convs.postTask tid with
  | some 0 => applyStep st tid .postTask (received_task_desc st.db ud tid s)
  | some 1 => applyStep st tid .postTask (received_task_timeframe st.db ud tid s)
  | some 2 => applyStep st tid .postTask (received_task_reward cls st.db ud tid s)
  | _ => textFromDelete st tid s ud

/-- Dispatch of a non-command text message, starting at `register_conv`
(position 2; the earlier `/start` handler matches only commands). -/
def dispatchText (cls : String → String) (st : BotState) (tid : Nat)
    (s : String) : BotState × List Output :=
  let ud := getUD st.userData tid
  match lookupConv st.convs.register tid with
  | some 0 => applyStep st tid .register (received_role st.db ud tid s)
  | some 1 => applyStep st tid .register (received_name st.db ud tid s)
  | some 2 => applyStep st tid .register (received_skills cls st.db ud tid s)
  | _ => textFromPostTask cls st tid s ud

/-- Dispatch of a callback query: no conversation state or fallback handler
accepts callback queries, so only the two standalone `CallbackQueryHandler`s
(positions 12 and 13, with their regex patterns) can match. -/
def dispatchCallback (st : BotState) (tid : Nat) (data : String) :
    BotState × List Output :=
  let ud := getUD st.userData tid
  if data = "edit_profile" ∨ data = "save_profile" then
    applyPlain st tid (profile_callback st.db ud tid data)
  else if data = "edit_name" ∨ data = "edit_description" ∨ data = "edit_university"
      ∨ data = "edit_study_year" ∨ data = "cancel_editing" then
    applyPlain st tid (edit_profile_callback st.db ud tid data)
  else (st, [])

def dispatch (cls : String → String) (st : BotState) : Event → BotState × List Output
  | .command tid text => dispatchCommand st tid text
  | .text tid s => dispatchText cls st tid s
  | .callback tid data => dispatchCallback st tid data

/-- Run a sequence of inbound events from a state. -/
def runEvents (cls : String → String) (st : BotState) : List Event → BotState
  | [] => st
  | ev :: rest => runEvents cls (dispatch cls st ev).1 rest

/-- The dispatcher state right after `main()` builds the application: no
conversation is active for anybody. -/
def initConvs : ConvMaps := ⟨[], [], [], []⟩

/-! ## Helper lemmas on the session maps -/

theorem find?_filter_ne (m : List (Nat × Nat)) (tid : Nat) :
    (m.filter (fun p => p.1 != tid)).find? (fun p => p.1 == tid) = none := by
  rw [List.find?_eq_none]
  intro x hx
  rw [List.mem_filter] at hx
  have h2 := hx.2
  simp only [bne_iff_ne, ne_eq, decide_eq_true_eq] at h2
  simp [h2]

theorem lookupConv_setConv_none (m : List (Nat × Nat)) (tid : Nat) :
    lookupConv (setConv m tid none) tid = none := by
  simp [lookupConv, setConv, find?_filter_ne]

theorem lookupConv_setConv_some (m : List (Nat × Nat)) (tid s : Nat) :
    lookupConv (setConv m tid (some s)) tid = some s := by
  simp [lookupConv, setConv, List.find?]

theorem getUD_setUD (m : List (Nat × UserData)) (tid : Nat) (d : UserData) :
    getUD (setUD m tid d) tid = d := by
  simp [getUD, setUD, List.find?]

/-! ## Helper lemmas: which store relations each handler touches -/

theorem received_role_db (db : Store) (ud : UserData) (tid : Nat) (s : String) :
    (received_role db ud tid s).db = db := by
  unfold received_role
  dsimp only
  split <;> rfl

theorem received_name_db (db : Store) (ud : UserData) (tid : Nat) (s : String) :
    (received_name db ud tid s).db = db := by
  unfold received_name
  dsimp only
  split <;> rfl

theorem received_skills_match_rows (cls : String → String) (db : Store)
    (ud : UserData) (tid : Nat) (s : String) :
    (received_skills cls db ud tid s).db.match_rows = db.match_rows := by
  unfold received_skills
  cases hn : ud.name <;> cases hr : ud.role <;> simp [create_user]

theorem post_task_command_db (db : Store) (ud : UserData) (tid : Nat) :
    (post_task_command db ud tid).db = db := by
  unfold post_task_command
  cases h : get_user_by_telegram_id db tid <;> simp
  split <;> rfl

theorem received_task_reward_match_rows (cls : String → String) (db : Store)
    (ud : UserData) (tid : Nat) (s : String) :
    (received_task_reward cls db ud tid s).db.match_rows = db.match_rows := by
  unfold received_task_reward
  cases hd : ud.task_desc <;>
    cases hu : get_user_by_telegram_id db tid <;>
    cases ht : ud.task_timeframe <;>
    simp [hd, hu, ht, create_task]

theorem profile_command_db (db : Store) (ud : UserData) (tid : Nat) :
    (profile_command db ud tid).db = db := by
  unfold profile_command
  cases h : get_user_by_telegram_id db tid <;> rfl

theorem profile_callback_db (db : Store) (ud : UserData) (tid : Nat) (d : String) :
    (profile_callback db ud tid d).db = db := by
  unfold profile_callback
  split
  · rfl
  · split
    · cases h : get_user_by_telegram_id db tid <;> rfl
    · rfl

theorem edit_profile_callback_db (db : Store) (ud : UserData) (tid : Nat)
    (d : String) : (edit_profile_callback db ud tid d).db = db := by
  unfold edit_profile_callback
  split
  · cases h : get_user_by_telegram_id db tid <;> rfl
  · cases h : edit_field_map d <;> rfl

theorem update_user_match_rows (db : Store) (tid : Nat) (f : String)
    (v : EditValue) : (update_user db tid f v).1.match_rows = db.match_rows := by
  unfold update_user
  split <;> rfl

theorem edit_profile_value_match_rows (db : Store) (ud : UserData) (tid : Nat)
    (s : String) : (edit_profile_value db ud tid s).db.match_rows = db.match_rows := by
  unfold edit_profile_value
  cases hf : ud.editing_field
  · rfl
  · simp only []
    split
    · cases hp : pythonInt (pyStrip s)
      · rfl
      · simp only []
        split <;> simp [update_user_match_rows]
    · split <;> simp [update_user_match_rows]

theorem delete_profile_command_db (db : Store) (ud : UserData) (tid : Nat) :
    (delete_profile_command db ud tid).db = db := by
  unfold delete_profile_command
  cases h : get_user_by_telegram_id db tid <;> rfl

theorem confirm_delete_profile_match_rows (db : Store) (ud : UserData)
    (tid : Nat) (s : String) :
    (confirm_delete_profile db ud tid s).db.match_rows = db.match_rows := by
  unfold confirm_delete_profile
  split
  · cases h : get_user_by_telegram_id db tid <;> rfl
  · rfl

theorem browse_tasks_command_db (db : Store) (ud : UserData) (tid : Nat) :
    (browse_tasks_command db ud tid).db = db := by
  unfold browse_tasks_command
  cases h : get_user_by_telegram_id db tid
  · rfl
  · simp only []
    split
    · rfl
    · split <;> rfl

theorem handle_menu_buttons_db (db : Store) (ud : UserData) (tid : Nat)
    (s : String) : (handle_menu_buttons db ud tid s).db = db := by
  unfold handle_menu_buttons help_command recommendations_command show_likes_command
  dsimp only
  split
  · rfl
  · split
    · cases h : get_user_by_telegram_id db tid <;> rfl
    · split
      · rfl
      · split <;> rfl

/-! ## Helper lemmas on the matching engine -/

theorem create_reaction_match_rows (db : Store) (a b : Nat) (rt : ReactionType) :
    (create_reaction db a b rt).match_rows = db.match_rows := rfl

theorem create_match_reactions (db : Store) (a b : Nat) :
    (create_match db a b).reactions = db.reactions := by
  unfold create_match
  split <;> rfl

theorem matchExists_create_reaction (db : Store) (a b : Nat) (rt : ReactionType)
    (x y : Nat) : matchExists (create_reaction db a b rt) x y = matchExists db x y := rfl

theorem hasLike_create_reaction_self (db : Store) (a b : Nat) :
    hasLike (create_reaction db a b ReactionType.LIKE) a b = true := by
  simp [hasLike, create_reaction]

theorem hasLike_create_reaction_rev (db : Store) (a b : Nat) (h : a ≠ b) :
    hasLike (create_reaction db a b ReactionType.LIKE) b a = hasLike db b a := by
  simp only [hasLike, create_reaction, List.any_append, List.any_cons, List.any_nil,
    Bool.or_false]
  have : (a == b) = false := by simp [h]
  simp [this]

theorem check_mutual_after_forward (db : Store) (a b : Nat) (h : a ≠ b) :
    check_mutual_like (create_reaction db a b ReactionType.LIKE) a b
      = hasLike db b a := by
  simp [check_mutual_like, hasLike_create_reaction_self,
    hasLike_create_reaction_rev db a b h]

theorem matchExists_create_match_self (db : Store) (a b : Nat) :
    matchExists (create_match db a b) a b = true := by
  unfold create_match
  split
  · assumption
  · simp [matchExists, matchPred, List.any_append]

theorem matchPred_same_pair (a b x y : Nat) (h : matchPred a b (x, y) = true) :
    ∀ p, matchPred x y p = matchPred a b p := by
  intro p
  simp only [matchPred, Bool.or_eq_true, Bool.and_eq_true, beq_iff_eq] at h
  rcases h with ⟨hx, hy⟩ | ⟨hx, hy⟩ <;> subst hx <;> subst hy
  · rfl
  · simp [matchPred, Bool.or_comm]

theorem matchCount_create_match_le_one (db : Store) (x y a b : Nat)
    (h : matchCount db a b ≤ 1) :
    matchCount (create_match db x y) a b ≤ 1 := by
  unfold create_match
  split
  · exact h
  · rename_i hne
    unfold matchCount at h ⊢
    simp only [List.filter_append]
    cases hp : matchPred a b (x, y)
    · simp [hp, List.filter, h]
    · have h0 : db.match_rows.filter (matchPred a b) = [] := by
        rw [List.filter_eq_nil_iff]
        intro p hpmem hpp
        have : matchExists db x y = true := by
          unfold matchExists
          rw [List.any_eq_true]
          exact ⟨p, hpmem, by rw [matchPred_same_pair a b x y hp p]; exact hpp⟩
        simp [this] at hne
      simp [hp, h0, List.filter]

/-! ## C4: the bot imports names `app.crud.crud_reaction` does not define -/

/-- C4: the bot's line-16 import pulls `create_reaction`, `check_mutual_like`
and `create_match` from `app.crud.crud_reaction`, but that module defines only
`create_reaction`; `check_mutual_like` and `create_match` are not among its
definitions, so the import cannot be satisfied by the provided source. -/
theorem missing_crud_reaction_imports :
    "check_mutual_like" ∈ bot_crud_reaction_imports
    ∧ "create_match" ∈ bot_crud_reaction_imports
    ∧ "check_mutual_like" ∉ crud_reaction_definitions
    ∧ "create_match" ∉ crud_reaction_definitions
    ∧ ¬ (∀ n ∈ bot_crud_reaction_imports, n ∈ crud_reaction_definitions) := by
  refine ⟨by decide, by decide, by decide, by decide, ?_⟩
  intro h
  exact absurd (h "check_mutual_like" (by decide)) (by decide)

/-! ## C2: recordInterest appends a Reaction and matches iff the reverse
reaction already exists -/

/-- C2: on the task-application path (`recordInterest(fromUser, toUser)` with
`fromUser` the applying talent and `toUser` the task owner), the handler
always appends `Reaction(from=fromUser, to=toUser, LIKE)` to the store, even
when such a reaction already exists; and — given that no Match for the pair
exists yet — a Match for the pair exists afterwards if and only if a LIKE
Reaction in the reverse direction already existed before the call.  The two
parties are distinct users (the applier must be a TALENT and only an
EMPLOYER can own a task). -/
theorem recordInterest_reaction_and_reciprocity
    (db : Store) (tid : Nat) (msg p1 : String) (u : User) (t : Task) (k : Int)
    (hu : get_user_by_telegram_id db tid = some u)
    (hrole : u.role = UserRole.TALENT)
    (hsplit : pySplit msg = ["/apply_task", p1])
    (hint : pythonInt p1 = some k)
    (ht : get_task_by_id db k = some t)
    (hne : u.id ≠ t.owner_id)
    (hnm : matchExists db u.id t.owner_id = false) :
    (apply_task_command db tid msg).db.reactions
      = db.reactions ++ [⟨u.id, t.owner_id, ReactionType.LIKE⟩]
    ∧ (matchExists (apply_task_command db tid msg).db u.id t.owner_id
        = hasLike db t.owner_id u.id) := by
  unfold apply_task_command
  rw [hu]
  dsimp only
  rw [if_neg (by simp [hrole])]
  rw [hsplit]
  dsimp only
  rw [hint]
  dsimp only
  rw [ht]
  dsimp only
  rw [check_mutual_after_forward db u.id t.owner_id hne]
  cases hrev : hasLike db t.owner_id u.id
  · rw [if_neg (by simp)]
    exact ⟨rfl, by rw [matchExists_create_reaction]; exact hnm⟩
  · rw [if_pos rfl]
    constructor
    · rw [create_match_reactions]
      rfl
    · exact matchExists_create_match_self _ u.id t.owner_id

/-- Witness for C2 at a concrete store: Alice (talent, id 1) applies to
Bob's task; a reverse reaction from Bob exists, so the reaction is appended
and the match materializes. -/
theorem recordInterest_reaction_and_reciprocity_witness :
    let alice : User := ⟨1, 100, "Alice", .TALENT, none, none, none, none⟩
    let db : Store := ⟨[alice, ⟨2, 200, "Bob", .EMPLOYER, none, none, none, none⟩],
      [⟨1, 2, "task", "1w", "10", none⟩], [⟨2, 1, .LIKE⟩], [], 3, 2⟩
    (apply_task_command db 100 "/apply_task 1").db.reactions
      = db.reactions ++ [⟨1, 2, ReactionType.LIKE⟩]
    ∧ (matchExists (apply_task_command db 100 "/apply_task 1").db 1 2
        = hasLike db 2 1) := by
  intro alice db
  have h := recordInterest_reaction_and_reciprocity db 100 "/apply_task 1" "1"
    alice ⟨1, 2, "task", "1w", "10", none⟩ 1
    (by decide) (by decide) (by decide) (by decide) (by decide) (by decide) (by decide)
  exact h

/-! ## C3: notification on match creation (corrected: it re-fires on every
reciprocal application) -/

/-- Counterexample to C3: with Bob's reverse reaction already present,
Alice's `/apply_task` fires twice; only one Match for the pair ever exists,
but Bob is sent the "You have a new match!" notification on both firings —
the second detection re-notifies instead of staying silent. -/
theorem duplicate_notification_on_second_apply :
    let db : Store := ⟨[⟨1, 100, "Alice", .TALENT, none, none, none, none⟩,
      ⟨2, 200, "Bob", .EMPLOYER, none, none, none, none⟩],
      [⟨1, 2, "task", "1w", "10", none⟩], [⟨2, 1, .LIKE⟩], [], 3, 2⟩
    let r1 := apply_task_command db 100 "/apply_task 1"
    let r2 := apply_task_command r1.db 100 "/apply_task 1"
    matchCount r2.db 1 2 = 1
    ∧ r1.notifications = [⟨200, "You have a new match!"⟩]
    ∧ r2.notifications = [⟨200, "You have a new match!"⟩] := by
  decide

/-- C3 as amended: whenever reciprocity holds at the moment of a task
application (in particular whenever the Match is newly created by it),
exactly one cross-user notification is emitted by that invocation and it is
addressed to the task owner (`toUser`); but the emission is gated on
reciprocity, not on the Match being new, so a repeated trigger notifies the
counterpart again. -/
theorem notification_on_reciprocal_apply
    (db : Store) (tid : Nat) (msg p1 : String) (u emp : User) (t : Task) (k : Int)
    (hu : get_user_by_telegram_id db tid = some u)
    (hrole : u.role = UserRole.TALENT)
    (hsplit : pySplit msg = ["/apply_task", p1])
    (hint : pythonInt p1 = some k)
    (ht : get_task_by_id db k = some t)
    (hne : u.id ≠ t.owner_id)
    (hrev : hasLike db t.owner_id u.id = true)
    (hemp : db.users.find? (fun x => x.id == t.owner_id) = some emp) :
    (apply_task_command db tid msg).notifications
      = [⟨emp.telegram_id, "You have a new match!"⟩]
    ∧ (apply_task_command db tid msg).replies
      = ["Applied successfully, and it's a match!"] := by
  unfold apply_task_command
  rw [hu]
  dsimp only
  rw [if_neg (by simp [hrole])]
  rw [hsplit]
  dsimp only
  rw [hint]
  dsimp only
  rw [ht]
  dsimp only
  rw [check_mutual_after_forward db u.id t.owner_id hne, hrev]
  rw [if_pos rfl]
  have husers : (create_match (create_reaction db u.id t.owner_id ReactionType.LIKE)
      u.id t.owner_id).users = db.users := by
    unfold create_match
    split <;> rfl
  rw [husers, hemp]
  exact ⟨rfl, rfl⟩

/-- Witness for the amended C3: the concrete second firing of the scenario —
the Match already exists, and the owner is notified again. -/
theorem notification_on_reciprocal_apply_witness :
    let db : Store := ⟨[⟨1, 100, "Alice", .TALENT, none, none, none, none⟩,
      ⟨2, 200, "Bob", .EMPLOYER, none, none, none, none⟩],
      [⟨1, 2, "task", "1w", "10", none⟩], [⟨2, 1, .LIKE⟩, ⟨1, 2, .LIKE⟩], [(1, 2)], 3, 2⟩
    (apply_task_command db 100 "/apply_task 1").notifications
      = [⟨200, "You have a new match!"⟩]
    ∧ (apply_task_command db 100 "/apply_task 1").replies
      = ["Applied successfully, and it's a match!"] := by
  intro db
  exact notification_on_reciprocal_apply db 100 "/apply_task 1" "1"
    ⟨1, 100, "Alice", .TALENT, none, none, none, none⟩
    ⟨2, 200, "Bob", .EMPLOYER, none, none, none, none⟩
    ⟨1, 2, "task", "1w", "10", none⟩ 1
    (by decide) (by decide) (by decide) (by decide) (by decide) (by decide)
    (by decide) (by decide)

/-! ## C1: at most one Match per unordered pair, over whole event traces -/

theorem matchCount_create_reaction (db : Store) (x y a b : Nat) (rt : ReactionType) :
    matchCount (create_reaction db x y rt) a b = matchCount db a b := rfl

theorem matchCount_congr (db1 db2 : Store) (a b : Nat)
    (h : db1.match_rows = db2.match_rows) : matchCount db1 a b = matchCount db2 a b := by
  unfold matchCount
  rw [h]

theorem applyStep_db (st : BotState) (tid : Nat) (k : ConvKey) (stp : Step) :
    (applyStep st tid k stp).1.db = stp.db := rfl

theorem applyPlain_db (st : BotState) (tid : Nat) (stp : Step) :
    (applyPlain st tid stp).1.db = stp.db := rfl

theorem apply_task_command_matchCount (db : Store) (tid : Nat) (msg : String)
    (a b : Nat) (h : matchCount db a b ≤ 1) :
    matchCount (apply_task_command db tid msg).db a b ≤ 1 := by
  unfold apply_task_command
  split
  · exact h
  · split
    · exact h
    · split
      · split
        · exact h
        · split
          · exact h
          · dsimp only
            split
            · exact matchCount_create_match_le_one _ _ _ a b h
            · exact h
      · exact h

theorem cmdFromEdit_db (st : BotState) (tid : Nat) (text : String) (ud : UserData) :
    (cmdFromEdit st tid text ud).1.db = st.db := by
  unfold cmdFromEdit
  split
  · split <;> rfl
  · rfl

theorem cmdFromDelete_db (st : BotState) (tid : Nat) (text : String) (ud : UserData) :
    (cmdFromDelete st tid text ud).1.db = st.db := by
  unfold cmdFromDelete
  split
  · split
    · rfl
    · exact cmdFromEdit_db st tid text ud
  · split
    · rw [applyStep_db, delete_profile_command_db]
    · exact cmdFromEdit_db st tid text ud

theorem cmdFromPlain_matchCount (st : BotState) (tid : Nat) (text : String)
    (ud : UserData) (a b : Nat) (h : matchCount st.db a b ≤ 1) :
    matchCount (cmdFromPlain st tid text ud).1.db a b ≤ 1 := by
  unfold cmdFromPlain
  split
  · rw [applyPlain_db, browse_tasks_command_db]
    exact h
  · split
    · rw [applyPlain_db]
      exact apply_task_command_matchCount st.db tid text a b h
    · split
      · rw [applyPlain_db, profile_command_db]
        exact h
      · split
        · exact h
        · split
          · exact h
          · split
            · exact h
            · rw [cmdFromDelete_db]
              exact h

theorem cmdFromPostTask_matchCount (st : BotState) (tid : Nat) (text : String)
    (ud : UserData) (a b : Nat) (h : matchCount st.db a b ≤ 1) :
    matchCount (cmdFromPostTask st tid text ud).1.db a b ≤ 1 := by
  unfold cmdFromPostTask
  split
  · split
    · exact h
    · exact cmdFromPlain_matchCount st tid text ud a b h
  · split
    · rw [applyStep_db, post_task_command_db]
      exact h
    · exact cmdFromPlain_matchCount st tid text ud a b h

theorem dispatchCommand_matchCount (st : BotState) (tid : Nat) (text : String)
    (a b : Nat) (h : matchCount st.db a b ≤ 1) :
    matchCount (dispatchCommand st tid text).1.db a b ≤ 1 := by
  unfold dispatchCommand
  dsimp only
  split
  · exact h
  · split
    · split
      · exact h
      · exact cmdFromPostTask_matchCount st tid text _ a b h
    · split
      · exact h
      · exact cmdFromPostTask_matchCount st tid text _ a b h

theorem textFromEdit_match_rows (st : BotState) (tid : Nat) (s : String)
    (ud : UserData) : (textFromEdit st tid s ud).1.db.match_rows = st.db.match_rows := by
  unfold textFromEdit
  split
  · rw [applyStep_db, edit_profile_value_match_rows]
  · rw [applyPlain_db, handle_menu_buttons_db]

theorem textFromDelete_match_rows (st : BotState) (tid : Nat) (s : String)
    (ud : UserData) : (textFromDelete st tid s ud).1.db.match_rows = st.db.match_rows := by
  unfold textFromDelete
  split
  · rw [applyStep_db, confirm_delete_profile_match_rows]
  · exact textFromEdit_match_rows st tid s ud

theorem textFromPostTask_match_rows (cls : String → String) (st : BotState)
    (tid : Nat) (s : String) (ud : UserData) :
    (textFromPostTask cls st tid s ud).1.db.match_rows = st.db.match_rows := by
  unfold textFromPostTask
  split
  · rfl
  · rfl
  · rw [applyStep_db, received_task_reward_match_rows]
  · exact textFromDelete_match_rows st tid s ud

theorem dispatchText_match_rows (cls : String → String) (st : BotState)
    (tid : Nat) (s : String) :
    (dispatchText cls st tid s).1.db.match_rows = st.db.match_rows := by
  unfold dispatchText
  dsimp only
  split
  · rw [applyStep_db, received_role_db]
  · rw [applyStep_db, received_name_db]
  · rw [applyStep_db, received_skills_match_rows]
  · exact textFromPostTask_match_rows cls st tid s _

theorem dispatchCallback_db (st : BotState) (tid : Nat) (d : String) :
    (dispatchCallback st tid d).1.db = st.db := by
  unfold dispatchCallback
  dsimp only
  split
  · rw [applyPlain_db, profile_callback_db]
  · split
    · rw [applyPlain_db, edit_profile_callback_db]
    · rfl

theorem dispatch_matchCount (cls : String → String) (st : BotState) (ev : Event)
    (a b : Nat) (h : matchCount st.db a b ≤ 1) :
    matchCount (dispatch cls st ev).1.db a b ≤ 1 := by
  cases ev with
  | command tid text =>
    exact dispatchCommand_matchCount st tid text a b h
  | text tid s =>
    show matchCount (dispatchText cls st tid s).1.db a b ≤ 1
    rw [matchCount_congr _ st.db a b (dispatchText_match_rows cls st tid s)]
    exact h
  | callback tid d =>
    show matchCount (dispatchCallback st tid d).1.db a b ≤ 1
    rw [dispatchCallback_db st tid d]
    exact h

/-- C1: however many events the bot processes — in particular however many
times the reaction-recording path runs, in either direction — the Entity
Store never holds more than one Match record for any unordered pair, as
long as it started with at most one (e.g. from an empty Match relation).
Every second reciprocity detection is a silent no-op of `create_match`. -/
theorem match_unique_invariant (cls : String → String) (st : BotState)
    (evs : List Event) (a b : Nat) (h : matchCount st.db a b ≤ 1) :
    matchCount (runEvents cls st evs).db a b ≤ 1 := by
  induction evs generalizing st with
  | nil => exact h
  | cons ev rest ih => exact ih _ (dispatch_matchCount cls st ev a b h)

/-- Witness for C1: the concrete two-firing scenario — Bob's reverse
reaction is in place, Alice applies twice; the pair `{1, 2}` ends with at
most one Match. -/
theorem match_unique_invariant_witness :
    let st : BotState := ⟨⟨[⟨1, 100, "Alice", .TALENT, none, none, none, none⟩,
      ⟨2, 200, "Bob", .EMPLOYER, none, none, none, none⟩],
      [⟨1, 2, "task", "1w", "10", none⟩], [⟨2, 1, .LIKE⟩], [], 3, 2⟩, initConvs, []⟩
    matchCount st.db 1 2 ≤ 1
    ∧ matchCount (runEvents (fun _ => "") st
        [.command 100 "/apply_task 1", .command 100 "/apply_task 1"]).db 1 2 ≤ 1 := by
  intro st
  exact ⟨by decide, match_unique_invariant (fun _ => "") st
    [.command 100 "/apply_task 1", .command 100 "/apply_task 1"] 1 2 (by decide)⟩

/-! ## C10: the `EDIT_VALUE` state of `edit_profile_conv` is unreachable -/

theorem cmdFromEdit_editProfile (st : BotState) (tid : Nat) (text : String)
    (ud : UserData) (h : st.convs.editProfile = []) :
    (cmdFromEdit st tid text ud).1.convs.editProfile = [] := by
  unfold cmdFromEdit
  rw [h]
  exact h

theorem cmdFromDelete_editProfile (st : BotState) (tid : Nat) (text : String)
    (ud : UserData) (h : st.convs.editProfile = []) :
    (cmdFromDelete st tid text ud).1.convs.editProfile = [] := by
  unfold cmdFromDelete
  split
  · split
    · exact h
    · exact cmdFromEdit_editProfile st tid text ud h
  · split
    · exact h
    · exact cmdFromEdit_editProfile st tid text ud h

theorem cmdFromPlain_editProfile (st : BotState) (tid : Nat) (text : String)
    (ud : UserData) (h : st.convs.editProfile = []) :
    (cmdFromPlain st tid text ud).1.convs.editProfile = [] := by
  unfold cmdFromPlain
  split
  · exact h
  · split
    · exact h
    · split
      · exact h
      · split
        · exact h
        · split
          · exact h
          · split
            · exact h
            · exact cmdFromDelete_editProfile st tid text ud h

theorem cmdFromPostTask_editProfile (st : BotState) (tid : Nat) (text : String)
    (ud : UserData) (h : st.convs.editProfile = []) :
    (cmdFromPostTask st tid text ud).1.convs.editProfile = [] := by
  unfold cmdFromPostTask
  split
  · split
    · exact h
    · exact cmdFromPlain_editProfile st tid text ud h
  · split
    · exact h
    · exact cmdFromPlain_editProfile st tid text ud h

theorem dispatchCommand_editProfile (st : BotState) (tid : Nat) (text : String)
    (h : st.convs.editProfile = []) :
    (dispatchCommand st tid text).1.convs.editProfile = [] := by
  unfold dispatchCommand
  dsimp only
  split
  · exact h
  · split
    · split
      · exact h
      · exact cmdFromPostTask_editProfile st tid text _ h
    · split
      · exact h
      · exact cmdFromPostTask_editProfile st tid text _ h

theorem textFromEdit_editProfile (st : BotState) (tid : Nat) (s : String)
    (ud : UserData) (h : st.convs.editProfile = []) :
    (textFromEdit st tid s ud).1.convs.editProfile = [] := by
  unfold textFromEdit
  rw [h]
  exact h

theorem textFromDelete_editProfile (st : BotState) (tid : Nat) (s : String)
    (ud : UserData) (h : st.convs.editProfile = []) :
    (textFromDelete st tid s ud).1.convs.editProfile = [] := by
  unfold textFromDelete
  split
  · exact h
  · exact textFromEdit_editProfile st tid s ud h

theorem textFromPostTask_editProfile (cls : String → String) (st : BotState)
    (tid : Nat) (s : String) (ud : UserData) (h : st.convs.editProfile = []) :
    (textFromPostTask cls st tid s ud).1.convs.editProfile = [] := by
  unfold textFromPostTask
  split
  · exact h
  · exact h
  · exact h
  · exact textFromDelete_editProfile st tid s ud h

theorem dispatchText_editProfile (cls : String → String) (st : BotState)
    (tid : Nat) (s : String) (h : st.convs.editProfile = []) :
    (dispatchText cls st tid s).1.convs.editProfile = [] := by
  unfold dispatchText
  dsimp only
  split
  · exact h
  · exact h
  · exact h
  · exact textFromPostTask_editProfile cls st tid s _ h

theorem dispatchCallback_editProfile (st : BotState) (tid : Nat) (d : String)
    (h : st.convs.editProfile = []) :
    (dispatchCallback st tid d).1.convs.editProfile = [] := by
  unfold dispatchCallback
  dsimp only
  split
  · exact h
  · split
    · exact h
    · exact h

theorem dispatch_editProfile (cls : String → String) (st : BotState) (ev : Event)
    (h : st.convs.editProfile = []) :
    (dispatch cls st ev).1.convs.editProfile = [] := by
  cases ev with
  | command tid text => exact dispatchCommand_editProfile st tid text h
  | text tid s => exact dispatchText_editProfile cls st tid s h
  | callback tid d => exact dispatchCallback_editProfile st tid d h

theorem runEvents_editProfile (cls : String → String) (st : BotState)
    (evs : List Event) (h : st.convs.editProfile = []) :
    (runEvents cls st evs).convs.editProfile = [] := by
  induction evs generalizing st with
  | nil => exact h
  | cons ev rest ih => exact ih _ (dispatch_editProfile cls st ev h)

/-- C10: starting from the freshly wired application (no active
conversations), no sequence of inbound events ever places any user in the
`EDIT_VALUE` state of `edit_profile_conv`: the conversation has an empty
`entry_points` list, and `edit_profile_callback` — the only handler that
returns `EDIT_VALUE` — is registered as a standalone `CallbackQueryHandler`
whose return value the dispatcher discards, so `edit_profile_conv`'s state
dictionary stays empty forever and `edit_profile_value` can never run. -/
theorem edit_value_unreachable (cls : String → String) (db0 : Store)
    (ud0 : List (Nat × UserData)) (evs : List Event) (tid : Nat) :
    lookupConv (runEvents cls ⟨db0, initConvs, ud0⟩ evs).convs.editProfile tid = none := by
  rw [runEvents_editProfile cls ⟨db0, initConvs, ud0⟩ evs rfl]
  rfl

/-! ## C6: `/cancel` ends the flow with no store mutation (corrected: the
field buffer is retained, not discarded) -/

/-- Counterexample to C6: a user mid-registration (state `ASK_SKILLS`, with
role and name already buffered) sends `/cancel`; the flow ends and the store
is untouched, but the session's field buffer still holds the collected role
and name — `cancel` never clears `context.user_data`, so the buffer is not
discarded. -/
theorem cancel_retains_field_buffer :
    let st : BotState := ⟨⟨[], [], [], [], 1, 1⟩, ⟨[(100, 2)], [], [], []⟩,
      [(100, ⟨some .TALENT, some "Alice", none, none, none, none⟩)]⟩
    let r := dispatch (fun _ => "") st (.command 100 "/cancel")
    lookupConv r.1.convs.register 100 = none
    ∧ r.1.db = st.db
    ∧ getUD r.1.userData 100 = ⟨some .TALENT, some "Alice", none, none, none, none⟩ := by
  decide

/-- C6 as amended: in every state of every flow (registration, task posting,
profile deletion, profile editing — whichever is the active conversation for
the user), `/cancel` ends that flow, returns the user to idle, and performs
no Entity Store mutation; the session's field buffer, however, is retained
in the per-user data rather than discarded. -/
theorem cancel_idle_no_mutation (cls : String → String) (st : BotState) (tid : Nat) :
    (∀ s, lookupConv st.convs.register tid = some s →
      (dispatch cls st (.command tid "/cancel")).1.db = st.db
      ∧ getUD (dispatch cls st (.command tid "/cancel")).1.userData tid
          = getUD st.userData tid
      ∧ lookupConv (dispatch cls st (.command tid "/cancel")).1.convs.register tid = none)
    ∧ (∀ s, lookupConv st.convs.register tid = none →
        lookupConv st.convs.postTask tid = some s →
      (dispatch cls st (.command tid "/cancel")).1.db = st.db
      ∧ getUD (dispatch cls st (.command tid "/cancel")).1.userData tid
          = getUD st.userData tid
      ∧ lookupConv (dispatch cls st (.command tid "/cancel")).1.convs.postTask tid = none)
    ∧ (∀ s, lookupConv st.convs.register tid = none →
        lookupConv st.convs.postTask tid = none →
        lookupConv st.convs.deleteProfile tid = some s →
      (dispatch cls st (.command tid "/cancel")).1.db = st.db
      ∧ getUD (dispatch cls st (.command tid "/cancel")).1.userData tid
          = getUD st.userData tid
      ∧ lookupConv (dispatch cls st (.command tid "/cancel")).1.convs.deleteProfile tid = none)
    ∧ (∀ s, lookupConv st.convs.register tid = none →
        lookupConv st.convs.postTask tid = none →
        lookupConv st.convs.deleteProfile tid = none →
        lookupConv st.convs.editProfile tid = some s →
      (dispatch cls st (.command tid "/cancel")).1.db = st.db
      ∧ getUD (dispatch cls st (.command tid "/cancel")).1.userData tid
          = getUD st.userData tid
      ∧ lookupConv (dispatch cls st (.command tid "/cancel")).1.convs.editProfile tid = none) := by
  refine ⟨?_, ?_, ?_, ?_⟩
  · intro s hreg
    have key : dispatch cls st (.command tid "/cancel")
        = applyStep st tid .register (cancel st.db (getUD st.userData tid) tid) := by
      show dispatchCommand st tid "/cancel" = _
      unfold dispatchCommand
      dsimp only
      rw [if_neg (by decide), hreg]
      dsimp only
      rw [if_pos (by decide)]
    rw [key]
    exact ⟨rfl, getUD_setUD st.userData tid _, lookupConv_setConv_none _ tid⟩
  · intro s hreg hpt
    have key : dispatch cls st (.command tid "/cancel")
        = applyStep st tid .postTask (cancel st.db (getUD st.userData tid) tid) := by
      show dispatchCommand st tid "/cancel" = _
      unfold dispatchCommand
      dsimp only
      rw [if_neg (by decide), hreg]
      dsimp only
      rw [if_neg (by decide)]
      unfold cmdFromPostTask
      rw [hpt]
      dsimp only
      rw [if_pos (by decide)]
    rw [key]
    exact ⟨rfl, getUD_setUD st.userData tid _, lookupConv_setConv_none _ tid⟩
  · intro s hreg hpt hdel
    have key : dispatch cls st (.command tid "/cancel")
        = applyStep st tid .deleteProfile (cancel st.db (getUD st.userData tid) tid) := by
      show dispatchCommand st tid "/cancel" = _
      unfold dispatchCommand
      dsimp only
      rw [if_neg (by decide), hreg]
      dsimp only
      rw [if_neg (by decide)]
      unfold cmdFromPostTask
      rw [hpt]
      dsimp only
      rw [if_neg (by decide)]
      unfold cmdFromPlain
      rw [if_neg (by decide), if_neg (by decide), if_neg (by decide),
        if_neg (by decide), if_neg (by decide), if_neg (by decide)]
      unfold cmdFromDelete
      rw [hdel]
      dsimp only
      rw [if_pos (by decide)]
    rw [key]
    exact ⟨rfl, getUD_setUD st.userData tid _, lookupConv_setConv_none _ tid⟩
  · intro s hreg hpt hdel hedit
    have key : dispatch cls st (.command tid "/cancel")
        = applyStep st tid .editProfile (cancel st.db (getUD st.userData tid) tid) := by
      show dispatchCommand st tid "/cancel" = _
      unfold dispatchCommand
      dsimp only
      rw [if_neg (by decide), hreg]
      dsimp only
      rw [if_neg (by decide)]
      unfold cmdFromPostTask
      rw [hpt]
      dsimp only
      rw [if_neg (by decide)]
      unfold cmdFromPlain
      rw [if_neg (by decide), if_neg (by decide), if_neg (by decide),
        if_neg (by decide), if_neg (by decide), if_neg (by decide)]
      unfold cmdFromDelete
      rw [hdel]
      dsimp only
      rw [if_neg (by decide)]
      unfold cmdFromEdit
      rw [hedit]
      dsimp only
      rw [if_pos (by decide)]
    rw [key]
    exact ⟨rfl, getUD_setUD st.userData tid _, lookupConv_setConv_none _ tid⟩

/-- Witness for the amended C6, exercising all four flows at concrete
states: `/cancel` ends the active flow, leaves the store alone, keeps the
buffer. -/
theorem cancel_idle_no_mutation_witness :
    let st1 : BotState := ⟨⟨[], [], [], [], 1, 1⟩, ⟨[(100, 2)], [], [], []⟩, []⟩
    let st2 : BotState := ⟨⟨[], [], [], [], 1, 1⟩, ⟨[], [(100, 1)], [], []⟩, []⟩
    let st3 : BotState := ⟨⟨[], [], [], [], 1, 1⟩, ⟨[], [], [(100, 0)], []⟩, []⟩
    let st4 : BotState := ⟨⟨[], [], [], [], 1, 1⟩, ⟨[], [], [], [(100, 1)]⟩, []⟩
    ((dispatch (fun _ => "") st1 (.command 100 "/cancel")).1.db = st1.db
      ∧ lookupConv (dispatch (fun _ => "") st1 (.command 100 "/cancel")).1.convs.register 100 = none)
    ∧ lookupConv (dispatch (fun _ => "") st2 (.command 100 "/cancel")).1.convs.postTask 100 = none
    ∧ lookupConv (dispatch (fun _ => "") st3 (.command 100 "/cancel")).1.convs.deleteProfile 100 = none
    ∧ lookupConv (dispatch (fun _ => "") st4 (.command 100 "/cancel")).1.convs.editProfile 100 = none := by
  intro st1 st2 st3 st4
  refine ⟨⟨?_, ?_⟩, ?_, ?_, ?_⟩
  · exact ((cancel_idle_no_mutation (fun _ => "") st1 100).1 2 (by decide)).1
  · exact ((cancel_idle_no_mutation (fun _ => "") st1 100).1 2 (by decide)).2.2
  · exact ((cancel_idle_no_mutation (fun _ => "") st2 100).2.1 1 (by decide) (by decide)).2.2
  · exact ((cancel_idle_no_mutation (fun _ => "") st3 100).2.2.1 0 (by decide) (by decide) (by decide)).2.2
  · exact ((cancel_idle_no_mutation (fun _ => "") st4 100).2.2.2 1 (by decide) (by decide) (by decide) (by decide)).2.2

/-! ## More helper lemmas: conversation transitions of one step -/

theorem getConvMap_setConvMap (c : ConvMaps) (k : ConvKey) (m : List (Nat × Nat)) :
    getConvMap (setConvMap c k m) k = m := by
  cases k <;> rfl

theorem applyStep_lookup_done (st : BotState) (tid : Nat) (k : ConvKey)
    (stp : Step) (h : stp.outcome = .done) :
    lookupConv (getConvMap (applyStep st tid k stp).1.convs k) tid = none := by
  unfold applyStep
  rw [h]
  dsimp only
  rw [getConvMap_setConvMap]
  exact lookupConv_setConv_none _ tid

theorem applyStep_lookup_move (st : BotState) (tid : Nat) (k : ConvKey)
    (stp : Step) (v : Nat) (h : stp.outcome = .move v) :
    lookupConv (getConvMap (applyStep st tid k stp).1.convs k) tid = some v := by
  unfold applyStep
  rw [h]
  dsimp only
  rw [getConvMap_setConvMap]
  exact lookupConv_setConv_some _ tid v

theorem applyStep_out (st : BotState) (tid : Nat) (k : ConvKey) (stp : Step) :
    (applyStep st tid k stp).2 = stp.out := rfl

/-! ## C5: profile deletion confirmation (corrected: the input is stripped
before the literal comparison) -/

/-- Counterexample to C5: in the deletion-confirmation state, an input that
deviates from the exact phrase by surrounding whitespace still deletes the
User — `confirm_delete_profile` strips the input before comparing, so a
whitespace deviation does not cancel. -/
theorem padded_phrase_still_deletes :
    let st : BotState := ⟨⟨[⟨1, 100, "Alice", .TALENT, none, none, none, none⟩],
      [], [], [], 2, 1⟩, ⟨[], [], [(100, 0)], []⟩, []⟩
    let r := dispatch (fun _ => "") st (.text 100 "   papafranchesco is genius   ")
    r.1.db.users = []
    ∧ r.2 = [.reply 100 "Your profile has been deleted."] := by
  decide

/-- C5 as amended: in the deletion-confirmation state the User is deleted if
and only if the input, after stripping leading and trailing whitespace,
equals the literal phrase; surrounding-whitespace deviations therefore do
not cancel, while any other deviation cancels the deletion and leaves the
store unchanged.  Either way the confirmation flow ends. -/
theorem deletion_iff_stripped_phrase (cls : String → String) (st : BotState)
    (tid : Nat) (s : String) (u : User)
    (hreg : lookupConv st.convs.register tid = none)
    (hpt : lookupConv st.convs.postTask tid = none)
    (hdel : lookupConv st.convs.deleteProfile tid = some 0)
    (hu : get_user_by_telegram_id st.db tid = some u) :
    (pyStrip s = "papafranchesco is genius" →
      (dispatch cls st (.text tid s)).1.db
        = { st.db with users := deleteFirst st.db.users tid })
    ∧ (pyStrip s ≠ "papafranchesco is genius" →
      (dispatch cls st (.text tid s)).1.db = st.db)
    ∧ lookupConv (dispatch cls st (.text tid s)).1.convs.deleteProfile tid = none := by
  have key : dispatch cls st (.text tid s)
      = applyStep st tid .deleteProfile
          (confirm_delete_profile st.db (getUD st.userData tid) tid s) := by
    show dispatchText cls st tid s = _
    unfold dispatchText
    dsimp only
    rw [hreg]
    dsimp only
    unfold textFromPostTask
    rw [hpt]
    dsimp only
    unfold textFromDelete
    rw [hdel]
  refine ⟨?_, ?_, ?_⟩
  · intro hyes
    rw [key, applyStep_db]
    unfold confirm_delete_profile
    rw [if_pos hyes, hu]
  · intro hno
    rw [key, applyStep_db]
    unfold confirm_delete_profile
    rw [if_neg hno]
  · rw [key]
    exact applyStep_lookup_done st tid .deleteProfile _
      (by unfold confirm_delete_profile; split <;> rfl)

/-- Witness for the amended C5: Alice confirms with the exact phrase and is
deleted; with a wrong phrase the store stays put. -/
theorem deletion_iff_stripped_phrase_witness :
    let st : BotState := ⟨⟨[⟨1, 100, "Alice", .TALENT, none, none, none, none⟩],
      [], [], [], 2, 1⟩, ⟨[], [], [(100, 0)], []⟩, []⟩
    ((pyStrip "papafranchesco is genius" = "papafranchesco is genius" →
      (dispatch (fun _ => "") st (.text 100 "papafranchesco is genius")).1.db
        = { st.db with users := deleteFirst st.db.users 100 })
    ∧ (pyStrip "papafranchesco is genius" ≠ "papafranchesco is genius" →
      (dispatch (fun _ => "") st (.text 100 "papafranchesco is genius")).1.db = st.db)
    ∧ lookupConv (dispatch (fun _ => "") st
        (.text 100 "papafranchesco is genius")).1.convs.deleteProfile 100 = none) := by
  intro st
  exact deletion_iff_stripped_phrase (fun _ => "") st 100 "papafranchesco is genius"
    ⟨1, 100, "Alice", .TALENT, none, none, none, none⟩
    (by decide) (by decide) (by decide) (by decide)

/-! ## C7: completing Registration performs exactly one user-creation write
(corrected: the conversation ends but the field buffer is not cleared) -/

/-- Counterexample to C7's "clears the session": after Registration
completes, the session's field buffer (the spec's session is
`\x7bflow kind, current state, field buffer\x7d`) still holds the collected
role and name — `received_skills` ends the conversation but never clears
`context.user_data`. -/
theorem registration_buffer_persists :
    let st : BotState := ⟨⟨[], [], [], [], 1, 1⟩, ⟨[(100, 2)], [], [], []⟩,
      [(100, ⟨some .TALENT, some "Alice", none, none, none, none⟩)]⟩
    let r := dispatch (fun _ => "web") st (.text 100 "I code")
    getUD r.1.userData 100 = ⟨some .TALENT, some "Alice", none, none, none, none⟩
    ∧ lookupConv r.1.convs.register 100 = none := by
  decide

/-- C7 as amended: for any buffered role and name, a text received in the
`ASK_SKILLS` state completes Registration with exactly one Entity Store
user-creation write — the new User carries the buffered role and name,
description equal to the (stripped) skills text, and categories equal to
the Classifier's output, null when the Classifier returns nothing; no other
relation of the store changes, and the registration conversation ends (the
user returns to idle) — but the session's field buffer is retained, not
cleared. -/
theorem registration_completion_creates_user (cls : String → String)
    (st : BotState) (tid : Nat) (sk nm : String) (rl : UserRole)
    (hreg : lookupConv st.convs.register tid = some 2)
    (hname : (getUD st.userData tid).name = some nm)
    (hrole : (getUD st.userData tid).role = some rl) :
    (dispatch cls st (.text tid sk)).1.db
      = { st.db with
          users := st.db.users ++ [⟨st.db.nextUserId, tid, nm, rl, some (pyStrip sk),
            (if cls (pyStrip sk) = "" then none else some (cls (pyStrip sk))),
            none, none⟩],
          nextUserId := st.db.nextUserId + 1 }
    ∧ lookupConv (dispatch cls st (.text tid sk)).1.convs.register tid = none
    ∧ getUD (dispatch cls st (.text tid sk)).1.userData tid = getUD st.userData tid := by
  have key : dispatch cls st (.text tid sk)
      = applyStep st tid .register
          (received_skills cls st.db (getUD st.userData tid) tid sk) := by
    show dispatchText cls st tid sk = _
    unfold dispatchText
    dsimp only
    rw [hreg]
  have hstep : received_skills cls st.db (getUD st.userData tid) tid sk
      = ⟨{ st.db with
            users := st.db.users ++ [⟨st.db.nextUserId, tid, nm, rl, some (pyStrip sk),
              (if cls (pyStrip sk) = "" then none else some (cls (pyStrip sk))),
              none, none⟩],
            nextUserId := st.db.nextUserId + 1 },
          getUD st.userData tid, .done,
          [.reply tid ("Registered " ++ nm ++ " as " ++ rl.value ++
            "! Categories: " ++ (Option.getD (if cls (pyStrip sk) = "" then none
              else some (cls (pyStrip sk))) "None"))]⟩ := by
    unfold received_skills
    rw [hname, hrole]
    dsimp only
    rfl
  refine ⟨?_, ?_, ?_⟩
  · rw [key, applyStep_db, hstep]
  · rw [key]
    exact applyStep_lookup_done st tid .register _ (by rw [hstep])
  · rw [key]
    show getUD (setUD st.userData tid _) tid = _
    rw [getUD_setUD, hstep]

/-- Witness for the amended C7: Alice completes registration; exactly the
one User row is appended, the flow ends, the buffer is retained. -/
theorem registration_completion_creates_user_witness :
    let st : BotState := ⟨⟨[], [], [], [], 1, 1⟩, ⟨[(100, 2)], [], [], []⟩,
      [(100, ⟨some .TALENT, some "Alice", none, none, none, none⟩)]⟩
    (dispatch (fun _ => "web") st (.text 100 "I code")).1.db
      = { st.db with
          users := st.db.users ++ [⟨st.db.nextUserId, 100, "Alice", .TALENT,
            some (pyStrip "I code"),
            (if (fun _ => "web") (pyStrip "I code") = "" then none
              else some ((fun _ => "web") (pyStrip "I code"))), none, none⟩],
          nextUserId := st.db.nextUserId + 1 }
    ∧ lookupConv (dispatch (fun _ => "web") st (.text 100 "I code")).1.convs.register 100
        = none
    ∧ getUD (dispatch (fun _ => "web") st (.text 100 "I code")).1.userData 100
        = getUD st.userData 100 := by
  intro st
  exact registration_completion_creates_user (fun _ => "web") st 100 "I code"
    "Alice" .TALENT (by decide) (by decide) (by decide)

/-! ## C8: non-numeric study_year input re-prompts without mutation -/

/-- C8: while editing the study_year field (state `EDIT_VALUE` with
`editing_field = "study_year"`), any input whose stripped text is not a
Python integer leaves the store untouched, keeps the user in `EDIT_VALUE`,
keeps the field buffer, and re-prompts with the explanatory reason. -/
theorem study_year_invalid_reprompts (cls : String → String) (st : BotState)
    (tid : Nat) (v : String)
    (hreg : lookupConv st.convs.register tid = none)
    (hpt : lookupConv st.convs.postTask tid = none)
    (hdel : lookupConv st.convs.deleteProfile tid = none)
    (hedit : lookupConv st.convs.editProfile tid = some 1)
    (hfield : (getUD st.userData tid).editing_field = some "study_year")
    (hnum : pythonInt (pyStrip v) = none) :
    (dispatch cls st (.text tid v)).1.db = st.db
    ∧ lookupConv (dispatch cls st (.text tid v)).1.convs.editProfile tid = some 1
    ∧ (dispatch cls st (.text tid v)).2
        = [.reply tid "Study year must be a number, try again or cancel editing."]
    ∧ getUD (dispatch cls st (.text tid v)).1.userData tid = getUD st.userData tid := by
  have key : dispatch cls st (.text tid v)
      = applyStep st tid .editProfile
          (edit_profile_value st.db (getUD st.userData tid) tid v) := by
    show dispatchText cls st tid v = _
    unfold dispatchText
    dsimp only
    rw [hreg]
    dsimp only
    unfold textFromPostTask
    rw [hpt]
    dsimp only
    unfold textFromDelete
    rw [hdel]
    dsimp only
    unfold textFromEdit
    rw [hedit]
  have hstep : edit_profile_value st.db (getUD st.userData tid) tid v
      = ⟨st.db, getUD st.userData tid, .move EDIT_VALUE,
          [.reply tid "Study year must be a number, try again or cancel editing."]⟩ := by
    unfold edit_profile_value
    rw [hfield]
    dsimp only
    rw [if_pos rfl, hnum]
  refine ⟨?_, ?_, ?_, ?_⟩
  · rw [key, applyStep_db, hstep]
  · rw [key]
    exact applyStep_lookup_move st tid .editProfile _ 1 (by rw [hstep]; rfl)
  · rw [key, applyStep_out, hstep]
  · rw [key]
    show getUD (setUD st.userData tid _) tid = _
    rw [getUD_setUD, hstep]

/-- Witness for C8: the input `"abc"` while editing study_year re-prompts
and mutates nothing. -/
theorem study_year_invalid_reprompts_witness :
    let st : BotState := ⟨⟨[⟨1, 100, "Alice", .TALENT, none, none, none, none⟩],
      [], [], [], 2, 1⟩, ⟨[], [], [], [(100, 1)]⟩,
      [(100, ⟨none, none, none, none, none, some "study_year"⟩)]⟩
    (dispatch (fun _ => "") st (.text 100 "abc")).1.db = st.db
    ∧ lookupConv (dispatch (fun _ => "") st (.text 100 "abc")).1.convs.editProfile 100
        = some 1
    ∧ (dispatch (fun _ => "") st (.text 100 "abc")).2
        = [.reply 100 "Study year must be a number, try again or cancel editing."]
    ∧ getUD (dispatch (fun _ => "") st (.text 100 "abc")).1.userData 100
        = getUD st.userData 100 := by
  intro st
  exact study_year_invalid_reprompts (fun _ => "") st 100 "abc"
    (by decide) (by decide) (by decide) (by decide) (by decide) (by decide)

/-! ## C9: committed study_year values (corrected: negatives are accepted) -/

/-- Counterexample to C9: with the study_year edit in progress, the input
`"-3"` passes the `int` conversion and is committed — the User record ends
with `study_year = -3`, a negative integer, so the nonnegativity invariant
is not enforced by the edit path. -/
theorem negative_study_year_committed :
    let st : BotState := ⟨⟨[⟨1, 100, "Alice", .TALENT, none, none, none, none⟩],
      [], [], [], 2, 1⟩, ⟨[], [], [], [(100, 1)]⟩,
      [(100, ⟨none, none, none, none, none, some "study_year"⟩)]⟩
    (dispatch (fun _ => "") st (.text 100 "-3")).1.db.users.map User.study_year
      = [some (-3)]
    ∧ pythonInt (pyStrip "-3") = some (-3) := by
  decide

/-- C9 as amended: every study_year value committed by the edit path is
exactly the integer Python `int` parses from the stripped input — of either
sign; only non-numeric inputs are rejected, so the committed value is null
or an integer but not necessarily nonnegative. -/
theorem study_year_commit_parses_int (cls : String → String) (st : BotState)
    (tid : Nat) (v : String) (n : Int) (u : User)
    (hreg : lookupConv st.convs.register tid = none)
    (hpt : lookupConv st.convs.postTask tid = none)
    (hdel : lookupConv st.convs.deleteProfile tid = none)
    (hedit : lookupConv st.convs.editProfile tid = some 1)
    (hfield : (getUD st.userData tid).editing_field = some "study_year")
    (hnum : pythonInt (pyStrip v) = some n)
    (hu : get_user_by_telegram_id st.db tid = some u) :
    (dispatch cls st (.text tid v)).1.db.users
      = replaceFirst st.db.users tid (fun x => { x with study_year := some n })
    ∧ (dispatch cls st (.text tid v)).1.db.tasks = st.db.tasks
    ∧ (dispatch cls st (.text tid v)).1.db.reactions = st.db.reactions
    ∧ (dispatch cls st (.text tid v)).1.db.match_rows = st.db.match_rows
    ∧ lookupConv (dispatch cls st (.text tid v)).1.convs.editProfile tid = none := by
  have key : dispatch cls st (.text tid v)
      = applyStep st tid .editProfile
          (edit_profile_value st.db (getUD st.userData tid) tid v) := by
    show dispatchText cls st tid v = _
    unfold dispatchText
    dsimp only
    rw [hreg]
    dsimp only
    unfold textFromPostTask
    rw [hpt]
    dsimp only
    unfold textFromDelete
    rw [hdel]
    dsimp only
    unfold textFromEdit
    rw [hedit]
  have hfind : st.db.users.find? (fun x => x.telegram_id == tid) = some u := hu
  have hstep : edit_profile_value st.db (getUD st.userData tid) tid v
      = ⟨{ st.db with
            users := replaceFirst st.db.users tid
              (fun x => { x with study_year := some n }) },
          getUD st.userData tid, .done,
          [.reply tid (pyCapitalize "study_year" ++ " updated successfully!")]⟩ := by
    unfold edit_profile_value
    rw [hfield]
    dsimp only
    rw [if_pos rfl, hnum]
    dsimp only
    unfold update_user
    rw [hfind]
    rfl
  refine ⟨?_, ?_, ?_, ?_, ?_⟩
  · rw [key, applyStep_db, hstep]
  · rw [key, applyStep_db, hstep]
  · rw [key, applyStep_db, hstep]
  · rw [key, applyStep_db, hstep]
  · rw [key]
    exact applyStep_lookup_done st tid .editProfile _ (by rw [hstep])

/-- Witness for the amended C9: committing `"-3"` stores exactly `-3`. -/
theorem study_year_commit_parses_int_witness :
    let st : BotState := ⟨⟨[⟨1, 100, "Alice", .TALENT, none, none, none, none⟩],
      [], [], [], 2, 1⟩, ⟨[], [], [], [(100, 1)]⟩,
      [(100, ⟨none, none, none, none, none, some "study_year"⟩)]⟩
    (dispatch (fun _ => "") st (.text 100 "-3")).1.db.users
      = replaceFirst st.db.users 100 (fun x => { x with study_year := some (-3) })
    ∧ lookupConv (dispatch (fun _ => "") st (.text 100 "-3")).1.convs.editProfile 100
        = none := by
  intro st
  have h := study_year_commit_parses_int (fun _ => "") st 100 "-3" (-3)
    ⟨1, 100, "Alice", .TALENT, none, none, none, none⟩
    (by decide) (by decide) (by decide) (by decide) (by decide) (by decide) (by decide)
  exact ⟨h.1, h.2.2.2.2⟩

end Innovedge
